import Mathlib

/-!
Shallow embedding of `lettersmith/doc.py`: the Doc record model, its
constructor and generic accessors, the format parsers with their error
context wrapper, the lifecycle operations `load` / `write` / `from_stub` /
`change_ext`, and the pickle-based content cache.

Python strings are embedded as `String`, `None`-able values as `Option`,
dicts as association lists, and exceptions as `Except`.  `pathlib.PurePath`
(POSIX flavour, as on the single local process the design assumes) is
embedded by the `pathParts` / `with_suffix` / `relative_to` functions below,
following CPython's `pathlib` semantics.  File systems are embedded as maps
from path strings to file contents, threaded explicitly.
-/

set_option autoImplicit false

deriving instance DecidableEq for Except

namespace Lettersmith

/-- Embedded Python value, for the open-ended structures produced by
parsing YAML/JSON into a Doc's `meta` field. -/
inductive Value where
  | null : Value
  | bool (b : Bool) : Value
  | int (n : Int) : Value
  | str (s : String) : Value
  | list (xs : List Value) : Value
  | dict (kvs : List (String × Value)) : Value

/-- Modelled from the spec: `lettersmith.date` (not under src/) coerces
timestamps "to a datetime type"; datetimes are embedded as integer epoch
offsets. -/
abbrev DateTime := Int

/-- Modelled from the spec: the "fixed epoch value for missing timestamps"
(`lettersmith.date.EPOCH`, not under src/). -/
def EPOCH : DateTime := 0

/-- Modelled from the spec: `lettersmith.date.to_datetime` (not under src/)
coerces a timestamp to the canonical datetime type; on a value that is
already a datetime it is the identity. -/
def to_datetime (t : DateTime) : DateTime := t

/-! ## PurePosixPath model (CPython `pathlib`) -/

/-- Split a character list at every occurrence of a separator character
(the list-level counterpart of `str.split`). -/
def splitOnChar (c : Char) : List Char → List (List Char)
  | [] => [[]]
  | x :: xs =>
    match splitOnChar c xs with
    | [] => [[]]
    | y :: ys => if x = c then [] :: y :: ys else (x :: y) :: ys

/-- A path string is absolute when it begins with the separator. -/
def isAbs (p : String) : Bool := p.data.head? = some '/'

/-- Normalized components of a POSIX path: split on the separator, dropping
empty components and `.` components (CPython `PurePosixPath` parsing). -/
def pathParts (p : String) : List String :=
  ((splitOnChar '/' p.data).map String.mk).filter (fun c => c ≠ "" && c ≠ ".")

/-- Render parts back to a path string, as `str()` of a `PurePosixPath`
does: a root prefix when absolute, `.` for an empty relative path. -/
def renderPath (abs : Bool) (parts : List String) : String :=
  match parts with
  | [] => if abs then "/" else "."
  | _ => (if abs then "/" else "") ++ String.intercalate "/" parts

/-- Coercing an arbitrary string through `PurePosixPath` and back to `str`. -/
def normalizePath (p : String) : String :=
  renderPath (isAbs p) (pathParts p)

/-- The final component of a path (`PurePath.name`; empty for a root or
empty path). -/
def nameOf (p : String) : String :=
  (pathParts p).getLast?.getD ""

/-- `PurePath(a, b)` for a relative second segment, as used by `write` and
the cache: join with the separator. -/
def joinPath (a b : String) : String :=
  if isAbs b then b
  else renderPath (isAbs a) (pathParts a ++ pathParts b)

/-- Index of the last occurrence of a character in a list, if any. -/
def lastIdxOf (c : Char) (cs : List Char) : Option Nat :=
  (List.range cs.length).foldl
    (fun acc i => if cs.get? i = some c then some i else acc) none

/-- CPython `PurePath.suffix`: the part of the name from its last dot, when
that dot is neither the first nor the last character; otherwise empty. -/
def suffixOf (name : String) : String :=
  let cs := name.data
  match lastIdxOf '.' cs with
  | some i => if 0 < i ∧ i < cs.length - 1 then String.mk (cs.drop i) else ""
  | none => ""

/-- The name with its suffix removed (`PurePath.stem`). -/
def stemOf (name : String) : String :=
  let cs := name.data
  String.mk (cs.take (cs.length - (suffixOf name).length))

/-- Embedded Python exceptions raised by the path/cache/lifecycle layer. -/
inductive Err where
  | valueError : Err
  | fileNotFound : Err
  | unpicklingError : Err
  deriving DecidableEq

/-- CPython `PurePath.with_suffix`: rejects a suffix containing the
separator, a non-empty suffix not starting with a dot, the bare-dot suffix,
and a path with an empty name; otherwise swaps the old suffix (or appends,
when there is none) on the final component. -/
def with_suffix (p : String) (suffix : String) : Except Err String :=
  if suffix.data.contains '/' then .error .valueError
  else if (suffix ≠ "" ∧ suffix.data.head? ≠ some '.') ∨ suffix = "." then .error .valueError
  else
    let name := nameOf p
    if name = "" then .error .valueError
    else
      let newName := stemOf name ++ suffix
      .ok (renderPath (isAbs p) ((pathParts p).dropLast ++ [newName]))

/-- CPython `PurePath.relative_to`, for the relative/anchored cases the
code exercises: an empty (or `.`) base returns the path itself unless the
path is absolute; otherwise the base's parts must be a prefix of the
path's parts and the remainder is returned. -/
def relative_to (p other : String) : Except Err String :=
  if pathParts other = [] then
    if isAbs other = isAbs p then
      .ok (renderPath false (pathParts p))
    else .error .valueError
  else
    if isAbs other = isAbs p ∧ (pathParts other).isPrefixOf (pathParts p) then
      .ok (renderPath false ((pathParts p).drop (pathParts other).length))
    else .error .valueError

/-! ## Record model -/

/-- A Python value accepted where the code passes either a string or a
`PurePath`; `doc(...)` coerces both with `str(...)`. -/
inductive Pathlike where
  | str (s : String) : Pathlike
  | path (p : String) : Pathlike

/-- `str()` applied to a path-like value: the identity on strings,
`pathlib` normalization on paths. -/
def strOfPath : Pathlike → String
  | .str s => s
  | .path p => normalizePath p

/-- The Doc namedtuple of `lettersmith/doc.py`. -/
structure Doc where
  id_path : String
  output_path : String
  input_path : Option String
  created : DateTime
  modified : DateTime
  title : String
  content : String
  «section» : String
  meta : Value
  templates : List String

/-- The `doc(...)` constructor.  Optional keyword arguments are embedded as
`Option` parameters, `none` meaning the argument was omitted so the
source's default applies: `None` input path, `EPOCH` timestamps, empty
strings, `{}` meta (`None` sentinel in source), `_EMPTY_TUPLE` templates
(`None` sentinel in source). -/
def doc (id_path output_path : Pathlike)
    (input_path : Option Pathlike)
    (created modified : Option DateTime)
    (title content «sec» : Option String)
    (meta : Option Value)
    (templates : Option (List String)) : Doc :=
  { id_path := strOfPath id_path
    output_path := strOfPath output_path
    input_path := input_path.map strOfPath
    created := to_datetime (created.getD EPOCH)
    modified := to_datetime (modified.getD EPOCH)
    title := title.getD ""
    content := content.getD ""
    «section» := «sec».getD ""
    meta := meta.getD (Value.dict [])
    templates := templates.getD [] }

/-- A Python value as returned by `getattr` on a Doc: a field's value, or a
non-field attribute object (a bound tuple/namedtuple method or class
attribute such as `count`, `index`, `_replace`, `_fields`), or a caller's
default of any shape. -/
inductive PyVal where
  | str (s : String) : PyVal
  | noneV : PyVal
  | int (n : Int) : PyVal
  | value (v : Value) : PyVal
  | strList (ts : List String) : PyVal
  | attr (name : String) : PyVal

/-- Attribute lookup on a Doc namedtuple instance, as CPython `getattr`
resolves it: the ten fields resolve to their values; the tuple methods
`count` and `index` and the namedtuple API `_replace`, `_asdict`, `_make`,
`_fields`, `_field_defaults` resolve to attribute objects; anything else is
absent. -/
def lookupAttr (d : Doc) (key : String) : Option PyVal :=
  if key = "id_path" then some (.str d.id_path)
  else if key = "output_path" then some (.str d.output_path)
  else if key = "input_path" then
    some (match d.input_path with | some s => .str s | none => .noneV)
  else if key = "created" then some (.int d.created)
  else if key = "modified" then some (.int d.modified)
  else if key = "title" then some (.str d.title)
  else if key = "content" then some (.str d.content)
  else if key = "section" then some (.str d.«section»)
  else if key = "meta" then some (.value d.meta)
  else if key = "templates" then some (.strList d.templates)
  else if key ∈ ["count", "index", "_replace", "_asdict", "_make",
                 "_fields", "_field_defaults"] then some (.attr key)
  else none

/-- The ten field names of the Doc namedtuple (`Doc._fields`). -/
def docFields : List String :=
  ["id_path", "output_path", "input_path", "created", "modified",
   "title", "content", "section", "meta", "templates"]

/-- The registered `get` implementation for Docs:
`getattr(doc, key, default)`. -/
def get_doc (d : Doc) (key : String) (dflt : PyVal) : PyVal :=
  (lookupAttr d key).getD dflt

/-- Embedded keyword-argument set for `_replace`: each field optionally
overridden. -/
structure DocPatch where
  id_path : Option String := Option.none
  output_path : Option String := Option.none
  input_path : Option (Option String) := Option.none
  created : Option DateTime := Option.none
  modified : Option DateTime := Option.none
  title : Option String := Option.none
  content : Option String := Option.none
  «section» : Option String := Option.none
  meta : Option Value := Option.none
  templates : Option (List String) := Option.none

/-- The registered `replace` implementation for Docs:
`doc._replace(**kwargs)`, returning a new Doc with the named fields
overwritten and every other field copied unchanged. -/
def replace_doc (d : Doc) (kw : DocPatch) : Doc :=
  { id_path := kw.id_path.getD d.id_path
    output_path := kw.output_path.getD d.output_path
    input_path := kw.input_path.getD d.input_path
    created := kw.created.getD d.created
    modified := kw.modified.getD d.modified
    title := kw.title.getD d.title
    content := kw.content.getD d.content
    «section» := kw.«section».getD d.«section»
    meta := kw.meta.getD d.meta
    templates := kw.templates.getD d.templates }

/-- Modelled from the spec: the Stub record (`lettersmith.stub`, not under
src/) holds identity and metadata fields but never the full content body. -/
structure Stub where
  id_path : String
  output_path : String
  input_path : Option String
  created : DateTime
  modified : DateTime
  title : String
  summary : String
  «section» : String
  meta : Value

/-- `from_stub`: promote a Stub back to a Doc through the `doc(...)`
constructor, passing every Stub identity/metadata field and omitting
`content` and `templates`. -/
def from_stub (s : Stub) : Doc :=
  doc (.str s.id_path) (.str s.output_path)
    (s.input_path.map Pathlike.str)
    (some s.created) (some s.modified)
    (some s.title) Option.none (some s.«section»)
    (some s.meta) Option.none

/-! ## Error context wrapper and format parsers -/

/-- Embedded Python exceptions flowing through doc-mapping functions. -/
inductive Exn where
  | DocException (msg : String) (cause : Exn) : Exn
  | ParseError (s : String) : Exn
  | other (s : String) : Exn

/-- The message `doc_exceptions` formats for a failing mapping function:
the template string with the doc's `id_path` and the function's
`__module__` and `__qualname__` interpolated. -/
def docExnMsg (id_path module qualname : String) : String :=
  "Error encountered while mapping doc \"" ++ id_path ++ "\" with " ++
    module ++ "." ++ qualname ++ "."

/-- A string occurs inside another (Python `in` on the formatted
message). -/
def strContains (s sub : String) : Prop :=
  ∃ a b, s = a ++ sub ++ b

/-- The `doc_exceptions` decorator: run the wrapped function; on success
pass its result through untouched, on any exception raise a `DocException`
carrying the formatted message with the original exception chained as the
cause. -/
def doc_exceptions (module qualname : String)
    (func : Doc → Except Exn Doc) (d : Doc) : Except Exn Doc :=
  match func d with
  | .ok r => .ok r
  | .error e => .error (.DocException (docExnMsg d.id_path module qualname) e)

/-- `parse_yaml`, decorated with `doc_exceptions` and parametrized by the
third-party `yaml.load`: parse the whole content, put the structure in
`meta` and blank `content`. -/
def parse_yaml (yamlLoad : String → Except Exn Value) : Doc → Except Exn Doc :=
  doc_exceptions "lettersmith.doc" "parse_yaml" (fun d =>
    match yamlLoad d.content with
    | .ok m => .ok (replace_doc d { meta := some m, content := some "" })
    | .error e => .error e)

/-- `parse_json`, decorated with `doc_exceptions` and parametrized by the
standard-library `json.loads`: parse the whole content, put the structure
in `meta` and blank `content`. -/
def parse_json (jsonLoads : String → Except Exn Value) : Doc → Except Exn Doc :=
  doc_exceptions "lettersmith.doc" "parse_json" (fun d =>
    match jsonLoads d.content with
    | .ok m => .ok (replace_doc d { meta := some m, content := some "" })
    | .error e => .error e)

/-- `change_ext`: swap the extension on a doc's `output_path` with
`PurePath.with_suffix`, returning a new doc. -/
def change_ext (d : Doc) (ext : String) : Except Err Doc :=
  (with_suffix d.output_path ext).map
    (fun updated => replace_doc d { output_path := some updated })

/-! ## Content cache -/

/-- Bytes of one on-disk cache entry: either a faithful pickle of a Doc
(what `pickle.dump` wrote) or bytes `pickle.load` cannot deserialize. -/
inductive Pickle where
  | doc (d : Doc) : Pickle
  | garbage : Pickle

/-- The cache directory: a map from entry path strings to entry bytes. -/
abbrev PickleFS := String → Option Pickle

/-- `pickle.load` on an entry's bytes: a faithful pickle of a Doc with
serializable fields deserializes to a structurally equal Doc; anything
else raises an unpickling error. -/
def pickleLoad : Pickle → Except Err Doc
  | .doc d => .ok d
  | .garbage => .error .unpicklingError

/-- `_cache_path`: the entry name for a doc identity,
`PurePath(_hashstr(id_path)).with_suffix('.pkl')`.  The digest function
(`hashlib.md5(...).hexdigest()` in the source) is passed as a parameter;
every theorem below holds for an arbitrary digest function. -/
def _cache_path (hashstr : String → String) (id_path : String) :
    Except Err String :=
  with_suffix (hashstr id_path) ".pkl"

/-- The memoized doc cache rooted at a directory. -/
structure Cache where
  cache_path : String

/-- `Cache.dump`: serialize the full doc under the hash-derived entry path
inside the cache root, and return the doc unchanged. -/
def Cache.dump (hashstr : String → String) (c : Cache) (fs : PickleFS)
    (d : Doc) : Except Err (Doc × PickleFS) :=
  match _cache_path hashstr d.id_path with
  | .error e => .error e
  | .ok p =>
      let full := joinPath c.cache_path p
      .ok (d, fun q => if q = full then some (.doc d) else fs q)

/-- `Cache.load`: given any record's `id_path`, open the hash-derived
entry inside the cache root (a missing entry is a file-not-found error,
as `open` raises) and unpickle it. -/
def Cache.load (hashstr : String → String) (c : Cache) (fs : PickleFS)
    (stub_id_path : String) : Except Err Doc :=
  match _cache_path hashstr stub_id_path with
  | .error e => .error e
  | .ok p =>
      match fs (joinPath c.cache_path p) with
      | none => .error .fileNotFound
      | some blob => pickleLoad blob

/-! ## Lifecycle: load and write -/

/-- A source file on disk: raw text and the file times
`read_file_times` reports (modelled from the spec: `lettersmith.date.
read_file_times`, not under src/, "reads raw file content and file
timestamps"). -/
structure TextFile where
  raw : String
  created : DateTime
  modified : DateTime

/-- The source tree: a map from path strings to files. -/
abbrev TextFS := String → Option TextFile

/-- The output tree written by `write`: a map from path strings to
contents. -/
abbrev OutFS := String → Option String

/-- CPython universal-newline translation performed by reading a file in
text mode (`open(pathlike, 'r')` with default newline handling): each
`\r\n` pair and each lone `\r` becomes `\n`. -/
def translateNewlines : List Char → List Char
  | [] => []
  | '\r' :: '\n' :: rest => '\n' :: translateNewlines rest
  | '\r' :: rest => '\n' :: translateNewlines rest
  | c :: rest => c :: translateNewlines rest

/-- The string `f.read()` returns for a file with the given raw bytes. -/
def readText (raw : String) : String :=
  String.mk (translateNewlines raw.data)

/-- `load`: read file times and content, derive `id_path` relative to a
root, and build a doc.  The collaborator path helpers of
`lettersmith.path` (not under src/; the spec calls the nice-path
normalization "a collaborator concern") are passed as parameters. -/
def load (to_nice_path tld to_title : String → String)
    (fs : TextFS) (pathlike rel : String) : Except Err Doc :=
  match fs pathlike with
  | none => .error .fileNotFound
  | some file =>
      match relative_to pathlike rel with
      | .error e => .error e
      | .ok idp =>
          .ok (doc (.path idp) (.path (to_nice_path idp))
            (some (.path pathlike))
            (some file.created) (some file.modified)
            (some (to_title pathlike)) (some (readText file.raw))
            (some (tld idp)) (some (Value.dict [])) Option.none)

/-- `write`: persist `doc.content` at `output_dir` joined with
`doc.output_path` (`write_file_deep`, not under src/, modelled from the
spec: it writes the content there, creating intermediate directories). -/
def write (d : Doc) (output_dir : String) (fs : OutFS) : OutFS :=
  fun q => if q = joinPath output_dir d.output_path then some d.content
    else fs q

/-! ## Shared concrete records for witnesses -/

/-- A concrete doc used to instantiate theorems at concrete inputs. -/
def sampleDoc : Doc :=
  { id_path := "post/hello.md", output_path := "post/hello/index.html",
    input_path := some "post/hello.md", created := 0, modified := 0,
    title := "Hello", content := "body text", «section» := "post",
    meta := Value.dict [], templates := [] }

/-! ## Claim theorems -/

/-- C5: for every call to `doc(...)` supplying `id_path` and
`output_path`, the omitted optional fields default to `None` input path,
epoch timestamps, empty strings for the textual fields, an empty mapping
for `meta` and an empty sequence for `templates`, with the identity paths
coerced to strings; the constructor is total (never raises) on such
calls. -/
theorem doc_constructor_defaults (idp outp : Pathlike) :
    doc idp outp Option.none Option.none Option.none Option.none
        Option.none Option.none Option.none Option.none =
      { id_path := strOfPath idp, output_path := strOfPath outp,
        input_path := Option.none, created := EPOCH, modified := EPOCH,
        title := "", content := "", «section» := "",
        meta := Value.dict [], templates := [] } := rfl

/-- C6: `replace(d, title="x")` yields a doc whose title is `"x"` and
whose every other field is the corresponding field of `d` (the original
is a value and is never mutated); and for an arbitrary named subset of
fields, each named field is overwritten and each unnamed field is copied
unchanged. -/
theorem replace_doc_frame (d : Doc) (x : String) (kw : DocPatch) :
    replace_doc d { title := some x } = { d with title := x } ∧
    replace_doc d kw =
      { id_path := kw.id_path.getD d.id_path,
        output_path := kw.output_path.getD d.output_path,
        input_path := kw.input_path.getD d.input_path,
        created := kw.created.getD d.created,
        modified := kw.modified.getD d.modified,
        title := kw.title.getD d.title,
        content := kw.content.getD d.content,
        «section» := kw.«section».getD d.«section»,
        meta := kw.meta.getD d.meta,
        templates := kw.templates.getD d.templates } :=
  ⟨rfl, rfl⟩

/-- C8: `from_stub` preserves `id_path`, `output_path`, `input_path`,
`created`, `modified`, `title`, `section` and `meta` from the stub, and
produces an empty `content` (and empty `templates`) regardless of what
content the original document had. -/
theorem from_stub_spec (s : Stub) :
    from_stub s =
      { id_path := s.id_path, output_path := s.output_path,
        input_path := s.input_path, created := s.created,
        modified := s.modified, title := s.title, content := "",
        «section» := s.«section», meta := s.meta, templates := [] } := by
  unfold from_stub doc
  cases hip : s.input_path <;> rfl

/-- The formatted message of `doc_exceptions` contains the offending
doc's `id_path`. -/
theorem docExnMsg_contains_id_path (id m q : String) :
    strContains (docExnMsg id m q) id :=
  ⟨"Error encountered while mapping doc \"",
   "\" with " ++ m ++ "." ++ q ++ ".",
   by simp only [docExnMsg, String.append_assoc]⟩

/-- The formatted message of `doc_exceptions` contains the wrapped
function's qualified name. -/
theorem docExnMsg_contains_qualname (id m q : String) :
    strContains (docExnMsg id m q) q :=
  ⟨"Error encountered while mapping doc \"" ++ id ++ "\" with " ++ m ++ ".",
   ".",
   by simp only [docExnMsg, String.append_assoc]⟩

/-- C2: for every doc-mapping function and every doc, if the function
raises then the wrapped function raises a `DocException` whose message
contains the doc's `id_path` and the function's qualified name and whose
chained cause is the original exception; if the function returns, the
wrapped function returns exactly its result. -/
theorem doc_exceptions_spec (module qualname : String)
    (f : Doc → Except Exn Doc) (d : Doc) :
    (∀ e : Exn, f d = .error e →
      doc_exceptions module qualname f d =
        .error (.DocException (docExnMsg d.id_path module qualname) e) ∧
      strContains (docExnMsg d.id_path module qualname) d.id_path ∧
      strContains (docExnMsg d.id_path module qualname) qualname) ∧
    (∀ r : Doc, f d = .ok r → doc_exceptions module qualname f d = .ok r) := by
  constructor
  · intro e he
    refine ⟨?_, docExnMsg_contains_id_path _ _ _,
      docExnMsg_contains_qualname _ _ _⟩
    unfold doc_exceptions
    rw [he]
  · intro r hr
    unfold doc_exceptions
    rw [hr]

/-- C2 witness: a concrete always-failing mapping function wrapped at a
concrete doc raises the `DocException` with the chained cause, and the
message contains the doc's `id_path` and the qualified name. -/
theorem doc_exceptions_spec_witness :
    doc_exceptions "lettersmith.markdowntools" "render_markdown"
        (fun _ => .error (.other "boom")) sampleDoc =
      .error (.DocException
        (docExnMsg "post/hello.md" "lettersmith.markdowntools"
          "render_markdown") (.other "boom")) ∧
    strContains
      (docExnMsg "post/hello.md" "lettersmith.markdowntools"
        "render_markdown") "post/hello.md" ∧
    strContains
      (docExnMsg "post/hello.md" "lettersmith.markdowntools"
        "render_markdown") "render_markdown" :=
  (doc_exceptions_spec "lettersmith.markdowntools" "render_markdown"
    (fun _ => .error (.other "boom")) sampleDoc).1 (.other "boom") rfl

/-- A concrete stand-in for the YAML/JSON loader at the spec's example
input: parses `"title: Hello\n"` to the singleton mapping and fails on
everything else. -/
def titleHelloLoader : String → Except Exn Value := fun s =>
  if s = "title: Hello\n" then
    .ok (Value.dict [("title", Value.str "Hello")])
  else .error (.ParseError "could not parse")

/-- A concrete doc whose whole content is the spec's YAML example. -/
def docYaml : Doc := { sampleDoc with content := "title: Hello\n" }

/-- C3: for every doc whose content parses successfully, `parse_yaml`
(and likewise `parse_json`) returns a doc whose `meta` is the parsed
structure and whose `content` is the empty string, every other field
unchanged. -/
theorem parse_whole_body (yamlLoad jsonLoads : String → Except Exn Value)
    (d : Doc) (my mj : Value) :
    (yamlLoad d.content = .ok my →
      parse_yaml yamlLoad d = .ok { d with meta := my, content := "" }) ∧
    (jsonLoads d.content = .ok mj →
      parse_json jsonLoads d = .ok { d with meta := mj, content := "" }) := by
  refine ⟨fun h => ?_, fun h => ?_⟩
  · simp [parse_yaml, doc_exceptions, h, replace_doc]
  · simp [parse_json, doc_exceptions, h, replace_doc]

/-- C3 witness: `parse_yaml` (and `parse_json`) on a doc whose content is
`"title: Hello\n"`, with a loader parsing it to `{"title": "Hello"}`,
yields that mapping as `meta` and an empty `content`. -/
theorem parse_whole_body_witness :
    parse_yaml titleHelloLoader docYaml =
      .ok { docYaml with
            meta := Value.dict [("title", Value.str "Hello")],
            content := "" } ∧
    parse_json titleHelloLoader docYaml =
      .ok { docYaml with
            meta := Value.dict [("title", Value.str "Hello")],
            content := "" } :=
  ⟨(parse_whole_body titleHelloLoader titleHelloLoader docYaml
      (Value.dict [("title", Value.str "Hello")])
      (Value.dict [("title", Value.str "Hello")])).1 rfl,
   (parse_whole_body titleHelloLoader titleHelloLoader docYaml
      (Value.dict [("title", Value.str "Hello")])
      (Value.dict [("title", Value.str "Hello")])).2 rfl⟩

/-- C9 counterexample: `"count"` is not a field of the Doc namedtuple,
yet `get(d, "count", v)` returns the tuple's bound `count` method (as
CPython `getattr` resolves it), not the default `v`. -/
theorem get_doc_count_counterexample :
    "count" ∉ docFields ∧
    get_doc sampleDoc "count" (PyVal.str "DEFAULT") ≠ PyVal.str "DEFAULT" := by
  refine ⟨by decide, fun h => ?_⟩
  rw [show get_doc sampleDoc "count" (PyVal.str "DEFAULT") =
        PyVal.attr "count" from rfl] at h
  exact nomatch h

/-- C9 amended: `get(d, k, v)` returns the field value when `k` names one
of the ten Doc fields, and returns the default `v` when `k` names no
attribute of the namedtuple at all; it never raises.  (For `k` naming a
non-field attribute — the tuple methods and namedtuple API such as
`count`, `index`, `_replace`, `_fields` — `getattr` returns that
attribute, not the default.) -/
theorem get_doc_spec (d : Doc) (k : String) (v : PyVal) :
    (get_doc d "id_path" v = .str d.id_path ∧
     get_doc d "output_path" v = .str d.output_path ∧
     get_doc d "input_path" v =
       (match d.input_path with
        | some s => PyVal.str s
        | none => PyVal.noneV) ∧
     get_doc d "created" v = .int d.created ∧
     get_doc d "modified" v = .int d.modified ∧
     get_doc d "title" v = .str d.title ∧
     get_doc d "content" v = .str d.content ∧
     get_doc d "section" v = .str d.«section» ∧
     get_doc d "meta" v = .value d.meta ∧
     get_doc d "templates" v = .strList d.templates) ∧
    (lookupAttr d k = Option.none → get_doc d k v = v) := by
  refine ⟨⟨rfl, rfl, rfl, rfl, rfl, rfl, rfl, rfl, rfl, rfl⟩, fun h => ?_⟩
  simp [get_doc, h]

/-- C9 witness: at a concrete doc, a key naming no attribute returns the
caller's default. -/
theorem get_doc_spec_witness :
    get_doc sampleDoc "no_such_key" PyVal.noneV = PyVal.noneV :=
  (get_doc_spec sampleDoc "no_such_key" PyVal.noneV).2 rfl

/-- Appending the `.pkl` suffix succeeds on any path with a non-empty
final component (the digest string), as `.pkl` passes every suffix
validity check of `with_suffix`. -/
theorem with_suffix_pkl (s : String) (h : nameOf s ≠ "") :
    with_suffix s ".pkl" =
      .ok (renderPath (isAbs s)
        ((pathParts s).dropLast ++ [stemOf (nameOf s) ++ ".pkl"])) := by
  unfold with_suffix
  rw [if_neg (by decide), if_neg (by decide), if_neg h]

/-- C1: dumping a doc returns it unchanged and records its pickle under
the hash-derived entry inside the cache root; a subsequent load for any
record whose `id_path` equals the doc's (same cache root, any digest
function with non-empty output) deserializes a structurally equal doc. -/
theorem cache_roundtrip (hashstr : String → String) (c : Cache)
    (fs : PickleFS) (d : Doc) (ridp : String)
    (hname : nameOf (hashstr d.id_path) ≠ "")
    (hr : ridp = d.id_path) :
    ∃ fsd : PickleFS,
      Cache.dump hashstr c fs d = .ok (d, fsd) ∧
      Cache.load hashstr c fsd ridp = .ok d := by
  subst hr
  have hp := with_suffix_pkl (hashstr d.id_path) hname
  refine ⟨fun q =>
    if q = joinPath c.cache_path
        (renderPath (isAbs (hashstr d.id_path))
          ((pathParts (hashstr d.id_path)).dropLast ++
            [stemOf (nameOf (hashstr d.id_path)) ++ ".pkl"]))
    then some (Pickle.doc d) else fs q, ?_, ?_⟩
  · simp [Cache.dump, _cache_path, hp]
  · simp [Cache.load, _cache_path, hp, pickleLoad]

/-- C1 witness: a concrete dump-then-load round trip on an empty cache
directory returns the dumped doc both times. -/
theorem cache_roundtrip_witness :
    ∃ fsd : PickleFS,
      Cache.dump (fun _ => "d41d8cd98f00b204e9800998ecf8427e")
          ⟨"theCache"⟩ (fun _ => Option.none) sampleDoc =
        .ok (sampleDoc, fsd) ∧
      Cache.load (fun _ => "d41d8cd98f00b204e9800998ecf8427e")
          ⟨"theCache"⟩ fsd "post/hello.md" = .ok sampleDoc :=
  cache_roundtrip _ _ _ _ _ (by decide) rfl

/-- C4: loading an identity whose hash-derived entry is absent from the
cache directory fails with the file-not-found error `open` raises, and
that error is distinct from the unpickling error produced by a
deserialization failure on a present (corrupt) entry. -/
theorem cache_miss (hashstr : String → String) (c : Cache)
    (fs : PickleFS) (ridp p : String)
    (hp : _cache_path hashstr ridp = .ok p)
    (habsent : fs (joinPath c.cache_path p) = Option.none) :
    Cache.load hashstr c fs ridp = .error .fileNotFound ∧
    (∀ fs2 : PickleFS, fs2 (joinPath c.cache_path p) = some Pickle.garbage →
      Cache.load hashstr c fs2 ridp = .error .unpicklingError) ∧
    Err.fileNotFound ≠ Err.unpicklingError := by
  refine ⟨?_, fun fs2 h2 => ?_, by decide⟩
  · simp [Cache.load, hp, habsent]
  · simp [Cache.load, hp, h2, pickleLoad]

/-- C4 witness: a concrete load from an empty cache directory reports the
miss, a corrupt entry at the same location reports an unpickling error,
and the two errors differ. -/
theorem cache_miss_witness :
    Cache.load (fun _ => "feedface") ⟨"theCache"⟩ (fun _ => Option.none)
        "never/dumped.md" = .error .fileNotFound ∧
    (∀ fs2 : PickleFS,
      fs2 (joinPath "theCache" "feedface.pkl") = some Pickle.garbage →
      Cache.load (fun _ => "feedface") ⟨"theCache"⟩ fs2 "never/dumped.md" =
        .error .unpicklingError) ∧
    Err.fileNotFound ≠ Err.unpicklingError :=
  cache_miss (fun _ => "feedface") ⟨"theCache"⟩ (fun _ => Option.none)
    "never/dumped.md" "feedface.pkl" (by decide) rfl

/-- C10: for every doc and every non-empty extension string not beginning
with a dot, `change_ext` raises `with_suffix`'s `ValueError` instead of
returning a doc; a call can only succeed with a dotted or empty extension,
and on success it replaces just the suffix of `output_path` — the
directory components and the stem of the final component are preserved —
leaving every other field unchanged. -/
theorem change_ext_spec (d : Doc) (ext : String) :
    (ext ≠ "" → ext.data.head? ≠ some '.' →
      change_ext d ext = .error .valueError) ∧
    (∀ d2 : Doc, change_ext d ext = .ok d2 →
      (ext = "" ∨ ext.data.head? = some '.') ∧
      d2.output_path =
        renderPath (isAbs d.output_path)
          ((pathParts d.output_path).dropLast ++
            [stemOf (nameOf d.output_path) ++ ext]) ∧
      d2.id_path = d.id_path ∧ d2.input_path = d.input_path ∧
      d2.created = d.created ∧ d2.modified = d.modified ∧
      d2.title = d.title ∧ d2.content = d.content ∧
      d2.«section» = d.«section» ∧ d2.meta = d.meta ∧
      d2.templates = d.templates) := by
  constructor
  · intro h1 h2
    unfold change_ext with_suffix
    by_cases hc : ext.data.contains '/' = true
    · rw [if_pos hc]
      rfl
    · rw [if_neg hc, if_pos (Or.inl ⟨h1, h2⟩)]
      rfl
  · intro d2 hok
    unfold change_ext with_suffix at hok
    by_cases hc : ext.data.contains '/' = true
    · rw [if_pos hc] at hok
      exact absurd hok (by simp [Except.map])
    rw [if_neg hc] at hok
    by_cases hd : (ext ≠ "" ∧ ext.data.head? ≠ some '.') ∨ ext = "."
    · rw [if_pos hd] at hok
      exact absurd hok (by simp [Except.map])
    rw [if_neg hd] at hok
    by_cases hn : nameOf d.output_path = ""
    · rw [if_pos hn] at hok
      exact absurd hok (by simp [Except.map])
    rw [if_neg hn] at hok
    simp only [Except.map] at hok
    injection hok with hok
    push_neg at hd
    refine ⟨?_, ?_⟩
    · by_cases he : ext = ""
      · exact Or.inl he
      · exact Or.inr (hd.1 he)
    · rw [← hok]
      exact ⟨rfl, rfl, rfl, rfl, rfl, rfl, rfl, rfl, rfl, rfl⟩

/-- C10 witness: at a concrete doc, the undotted extension `"html"`
raises, while the dotted `".md"` succeeds and rewrites only the final
component's suffix. -/
theorem change_ext_spec_witness :
    change_ext sampleDoc "html" = Except.error Err.valueError ∧
    (".md" = "" ∨ ".md".data.head? = some '.') ∧
    ({ sampleDoc with output_path := "post/hello/index.md" } : Doc).output_path =
      renderPath (isAbs sampleDoc.output_path)
        ((pathParts sampleDoc.output_path).dropLast ++
          [stemOf (nameOf sampleDoc.output_path) ++ ".md"]) :=
  ⟨(change_ext_spec sampleDoc "html").1 (by decide) (by decide),
   ((change_ext_spec sampleDoc ".md").2
      { sampleDoc with output_path := "post/hello/index.md" } rfl).1,
   ((change_ext_spec sampleDoc ".md").2
      { sampleDoc with output_path := "post/hello/index.md" } rfl).2.1⟩

/-- Universal-newline translation of a list starting with a character
other than a carriage return steps over that character. -/
theorem translateNewlines_cons_ne (c : Char) (cs : List Char)
    (hc : c ≠ '\r') :
    translateNewlines (c :: cs) = c :: translateNewlines cs := by
  cases cs with
  | nil => simp [translateNewlines, hc]
  | cons c2 rest => simp [translateNewlines, hc]

/-- Universal-newline translation is the identity on text containing no
carriage return. -/
theorem translateNewlines_id (cs : List Char) (h : '\r' ∉ cs) :
    translateNewlines cs = cs := by
  induction cs with
  | nil => rfl
  | cons c rest ih =>
    have hc : c ≠ '\r' := fun hh => h (hh ▸ List.mem_cons_self c rest)
    have hr : '\r' ∉ rest := fun hh => h (List.mem_cons_of_mem c hh)
    rw [translateNewlines_cons_ne c rest hc, ih hr]

/-- The source tree holding the counterexample file, whose content has a
CRLF line ending. -/
def crlfFS : TextFS := fun p =>
  if p = "notes/crlf.md" then some ⟨"a\r\nb", 5, 7⟩ else Option.none

/-- The doc `load` produces for that file: its content has been rewritten
to `"a\nb"` by text-mode reading. -/
def crlfDoc : Doc :=
  { id_path := "notes/crlf.md", output_path := "notes/crlf.md",
    input_path := some "notes/crlf.md", created := 5, modified := 7,
    title := "T", content := "a\nb", «section» := "notes/crlf.md",
    meta := Value.dict [], templates := [] }

/-- C7 counterexample: a valid UTF-8 text file whose raw content is
`"a\r\nb"` is loaded with content `"a\nb"` (CPython text-mode reading
translates the CRLF), so `write(load(p), dir)` writes `"a\nb"` — not the
original content byte-for-byte. -/
theorem load_write_roundtrip_counterexample :
    load (fun s => s) (fun s => s) (fun _ => "T") crlfFS "notes/crlf.md" "" =
      .ok crlfDoc ∧
    write crlfDoc "site" (fun _ => Option.none) "site/notes/crlf.md" =
      some "a\nb" ∧
    "a\nb" ≠ "a\r\nb" :=
  ⟨rfl, rfl, by decide⟩

/-- C7 amended: for every relative source path and every file whose
content contains no carriage return, `write(load(p), dir)` with no
transform in between writes the original content byte-for-byte at the
joined output location.  (Text-mode reading normalizes CRLF/CR to LF, so
contents containing `\r` are written back normalized, and `load`'s
default `relative_to=""` raises on an absolute source path.) -/
theorem load_write_roundtrip (to_nice_path tld to_title : String → String)
    (fs : TextFS) (outfs : OutFS) (p outDir : String) (file : TextFile)
    (hfile : fs p = some file)
    (hrel : isAbs p = false)
    (hcr : '\r' ∉ file.raw.data) :
    ∃ d : Doc,
      load to_nice_path tld to_title fs p "" = .ok d ∧
      d.content = file.raw ∧
      write d outDir outfs (joinPath outDir d.output_path) =
        some file.raw := by
  have hrt : relative_to p "" = .ok (renderPath false (pathParts p)) := by
    unfold relative_to
    rw [if_pos (by decide : pathParts "" = [])]
    rw [if_pos (show isAbs "" = isAbs p by rw [hrel]; decide)]
  have hcontent : readText file.raw = file.raw := by
    unfold readText
    rw [translateNewlines_id file.raw.data hcr]
  refine ⟨doc (.path (renderPath false (pathParts p)))
      (.path (to_nice_path (renderPath false (pathParts p))))
      (some (.path p)) (some file.created) (some file.modified)
      (some (to_title p)) (some (readText file.raw))
      (some (tld (renderPath false (pathParts p)))) (some (Value.dict []))
      Option.none, ?_, ?_, ?_⟩
  · simp [load, hfile, hrt]
  · exact hcontent
  · unfold write
    rw [if_pos rfl]
    exact congrArg some hcontent

/-- The source tree for the C7 witness: one LF-only file. -/
def aboutFS : TextFS := fun p =>
  if p = "about.md" then some ⟨"hello\nworld", 1, 2⟩ else Option.none

/-- C7 witness: a concrete CR-free file survives the load/write round
trip byte-for-byte. -/
theorem load_write_roundtrip_witness :
    ∃ d : Doc,
      load (fun s => s) (fun s => s) (fun _ => "About") aboutFS
        "about.md" "" = .ok d ∧
      d.content = "hello\nworld" ∧
      write d "site" (fun _ => Option.none) (joinPath "site" d.output_path) =
        some "hello\nworld" :=
  load_write_roundtrip (fun s => s) (fun s => s) (fun _ => "About")
    aboutFS (fun _ => Option.none) "about.md" "site" ⟨"hello\nworld", 1, 2⟩
    rfl (by decide) (by decide)

end Lettersmith
